import Mathlib

/-!
Shallow embedding of the terminusgps-timekeeper core
(src/terminusgps_authenticator/models.py and
src/terminusgps_timekeeper/views/employees.py).

Timestamps are modelled as integers, database rows as lists, model
instances as structures, and assertion failures as the error side of
an Except value.  Each definition is translated directly from the
corresponding Python function; comments point to the source lines.
-/

deriving instance DecidableEq for Except

/-- LogAction choices (models.py lines 12-17). -/
inductive LogAction
  | punch_in
  | punch_out
  | assign_code
  | created
  | unknown
  deriving DecidableEq, Repr

/-- A row of AuthenticatorLogItem (models.py lines 84-104): datetime,
employee foreign key (modelled by the employee primary key), action. -/
structure AuthenticatorLogItem where
  datetime : Int
  employee : Nat
  action : LogAction
  deriving DecidableEq, Repr

/-- A row of AuthenticatorEmployeeShift (models.py lines 107-135):
start and end datetimes, employee foreign key, optional duration,
report foreign key. -/
structure AuthenticatorEmployeeShift where
  start_datetime : Int
  end_datetime : Int
  employee : Nat
  duration : Option Int
  report : Nat
  deriving DecidableEq, Repr

/-- Python truthiness of the duration field: None and the zero
timedelta are falsy, so `not self.duration` holds exactly for
those two values. -/
def durationFalsy : Option Int → Bool
  | none => true
  | some d => d == 0

/-- AuthenticatorEmployeeShift.save (models.py lines 132-135): if the
duration field is falsy, set it to end minus start. -/
def shift_save (s : AuthenticatorEmployeeShift) : AuthenticatorEmployeeShift :=
  if durationFalsy s.duration then
    { s with duration := some (s.end_datetime - s.start_datetime) }
  else s

/-- Stable insertion used to model the order_by clause on datetime. -/
def insertByDatetime (x : AuthenticatorLogItem) :
    List AuthenticatorLogItem → List AuthenticatorLogItem
  | [] => [x]
  | y :: ys =>
    if x.datetime ≤ y.datetime then x :: y :: ys else y :: insertByDatetime x ys

/-- Models `.order_by("datetime")` (models.py line 223): a stable sort
of the rows by ascending datetime. -/
def orderByDatetime : List AuthenticatorLogItem → List AuthenticatorLogItem
  | [] => []
  | x :: xs => insertByDatetime x (orderByDatetime xs)

/-- First-occurrence deduplication, auxiliary for distinctList. -/
def distinctAux (seen : List Nat) : List Nat → List Nat
  | [] => []
  | x :: xs =>
    if seen.contains x then distinctAux seen xs
    else x :: distinctAux (x :: seen) xs

/-- Models `.values_list("employee__pk", flat=True).distinct()`
(models.py line 190).  The ORM leaves the row order unspecified; the
embedding fixes first-occurrence order of the employee ids. -/
def distinctList (l : List Nat) : List Nat := distinctAux [] l

/-- The inner loop body of generate_shifts (models.py lines 225-238),
scanning one ordered per-employee log list while threading the `prev`
variable.  Entries whose action is neither punch_in nor punch_out are
skipped; a pending punch_in followed by a punch_out emits a shift
(created through shift_save, as objects.create invokes save) and
clears `prev`; every other entry overwrites `prev`.  Returns the
created shifts together with the final value of `prev`. -/
def scanLogs (e rpk : Nat) :
    List AuthenticatorLogItem → Option AuthenticatorLogItem →
    List AuthenticatorEmployeeShift × Option AuthenticatorLogItem
  | [], prev => ([], prev)
  | curr :: rest, prev =>
    if curr.action = LogAction.punch_in ∨ curr.action = LogAction.punch_out then
      match prev with
      | some p =>
        if p.action = LogAction.punch_in ∧ curr.action = LogAction.punch_out then
          let s := shift_save
            { start_datetime := p.datetime, end_datetime := curr.datetime,
              employee := e, duration := none, report := rpk }
          let r := scanLogs e rpk rest none
          (s :: r.1, r.2)
        else scanLogs e rpk rest (some curr)
      | none => scanLogs e rpk rest (some curr)
    else scanLogs e rpk rest prev

/-- The outer loop of generate_shifts (models.py lines 222-238).  In
the source, `prev` is initialised once at line 220, before the
employee loop, and is never reset when moving to the next employee, so
its final value for one employee is the initial value for the next.
The embedding reproduces exactly that threading. -/
def employeeLoop (logs : List AuthenticatorLogItem) (rpk : Nat) :
    List Nat → Option AuthenticatorLogItem → List AuthenticatorEmployeeShift
  | [], _ => []
  | e :: es, prev =>
    let elogs := orderByDatetime (logs.filter (fun l => l.employee == e))
    let r := scanLogs e rpk elogs prev
    r.1 ++ employeeLoop logs rpk es r.2

/-- All shift rows created by one run of generate_shifts over the given
report logs, with `prev = None` only at the very start (models.py
lines 217-238). -/
def generatedShiftRows (logs : List AuthenticatorLogItem) (rpk : Nat) :
    List AuthenticatorEmployeeShift :=
  employeeLoop logs rpk (distinctList (logs.map (fun l => l.employee))) none

/-- The assertion failures raised by the report methods. -/
inductive AssertionError
  | logsNotSet
  | shiftsNotGenerated
  deriving DecidableEq, Repr

/-- The persistent state of an AuthenticatorLogReport (models.py lines
138-146) together with the shift rows that reference it: optional
primary key, associated log rows, shift rows whose report foreign key
is this report, and the optional pdf field. -/
structure ReportState where
  pk : Option Nat
  logs : List AuthenticatorLogItem
  shifts : List AuthenticatorEmployeeShift
  pdf : Option String
  deriving DecidableEq, Repr

/-- AuthenticatorLogReport.shifts_generated (models.py lines 240-243):
whether at least one shift row references the report. -/
def shifts_generated (r : ReportState) : Bool := !r.shifts.isEmpty

/-- AuthenticatorLogReport.generate_shifts (models.py lines 207-238):
asserts that the report has logs, then runs the pairing loops and
inserts the created shift rows.  No assertion inspects the existing
shift set. -/
def generate_shifts (r : ReportState) : Except AssertionError ReportState :=
  if r.logs.isEmpty then Except.error AssertionError.logsNotSet
  else Except.ok
    { r with shifts := r.shifts ++ generatedShiftRows r.logs (r.pk.getD 0) }

/-- AuthenticatorLogReport.generate_pdf (models.py lines 192-205):
asserts logs exist, then asserts shifts were generated, then sets the
pdf field. -/
def generate_pdf (r : ReportState) : Except AssertionError ReportState :=
  if r.logs.isEmpty then Except.error AssertionError.logsNotSet
  else if !(shifts_generated r) then Except.error AssertionError.shiftsNotGenerated
  else Except.ok { r with pdf := some "" }

/-- The Model.save call at the end of AuthenticatorLogReport.save:
assigns a primary key on first save, otherwise leaves the row state
unchanged in this embedding. -/
def report_super_save (r : ReportState) (newPk : Nat) : ReportState :=
  match r.pk with
  | some _ => r
  | none => { r with pk := some newPk }

/-- AuthenticatorLogReport.save (models.py lines 155-159): when the
report is already persisted and shifts_generated is false, run
generate_shifts, then perform the ordinary save. -/
def report_save (r : ReportState) (newPk : Nat) : Except AssertionError ReportState :=
  if r.pk.isSome && !(shifts_generated r) then
    match generate_shifts r with
    | Except.error e => Except.error e
    | Except.ok r2 => Except.ok (report_super_save r2 newPk)
  else Except.ok (report_super_save r newPk)

/-- The persistent state of an AuthenticatorEmployee (models.py lines
20-38), restricted to the fields read or written by save: optional
primary key, punched_in flag, fingerprint code, and the two shadow
fields.  The shadow fingerprint code is nullable (its default is
None), so it is an Option. -/
structure EmployeeState where
  pk : Option Nat
  punched_in : Bool
  code : String
  _prev_punch_state : Bool
  _prev_fingerprint_code : Option String
  deriving DecidableEq, Repr

/-- AuthenticatorEmployee.save (models.py lines 48-71).  When the row
has a primary key: if punched_in differs from the shadow punch state,
create a punch log (punch_in exactly when the shadow was false and the
current value is true, otherwise punch_out) and update the shadow;
then, if the code differs from the shadow code, update that shadow and
create an assign_code log.  Both logs share the timestamp `now` taken
once.  Without a primary key, no log is created and the key is
assigned.  Returns the new state and the created log rows in creation
order. -/
def employee_save (e : EmployeeState) (empPk : Nat) (now : Int) :
    EmployeeState × List AuthenticatorLogItem :=
  match e.pk with
  | none => ({ e with pk := some empPk }, [])
  | some epk =>
    let step1 :=
      if e.punched_in ≠ e._prev_punch_state then
        let act :=
          if e._prev_punch_state = false ∧ e.punched_in = true then LogAction.punch_in
          else LogAction.punch_out
        ({ e with _prev_punch_state := e.punched_in },
          [{ datetime := now, employee := epk, action := act }])
      else (e, [])
    let e1 := step1.1
    if some e1.code ≠ e1._prev_fingerprint_code then
      ({ e1 with _prev_fingerprint_code := some e1.code },
        step1.2 ++ [{ datetime := now, employee := epk, action := LogAction.assign_code }])
    else (e1, step1.2)

/-- A sequence of saves of one employee: each element of the list holds
the punched_in and code values the caller sets before saving.  Returns
the final state and all log rows created, in order. -/
def runSaves (e : EmployeeState) (empPk : Nat) :
    List (Bool × String) → EmployeeState × List AuthenticatorLogItem
  | [] => (e, [])
  | u :: us =>
    let saved := employee_save { e with punched_in := u.1, code := u.2 } empPk 0
    let rest := runSaves saved.1 empPk us
    (rest.1, saved.2 ++ rest.2)

/-- Modelled from the claim text: the expected number of log entries
for a sequence of saves is, over the saves performed with a primary
key present, the count of saves where punched_in differs from the
shadow previous punch state plus the count of saves where the code
differs from the shadow previous code, each shadow being updated to
the new value when it differed. -/
def claimedLogCount (hasPk shadowPunch : Bool) (shadowCode : Option String) :
    List (Bool × String) → Nat
  | [] => 0
  | u :: us =>
    if hasPk then
      ((if u.1 ≠ shadowPunch then 1 else 0) + (if some u.2 ≠ shadowCode then 1 else 0))
        + claimedLogCount true (if u.1 ≠ shadowPunch then u.1 else shadowPunch)
            (if some u.2 ≠ shadowCode then some u.2 else shadowCode) us
    else claimedLogCount true shadowPunch shadowCode us

/-- One row of the uploaded batch table (views/employees.py lines
111-118): the Email cell, and the optional Phone and Title cells. -/
structure UploadRow where
  email : String
  phone : Option String
  title : Option String
  deriving DecidableEq, Repr

/-- The uploaded input file for batch employee creation: its name as a
character list, and the tabular data (column names and rows) that
pandas would extract from it. -/
structure InputFile where
  name : List Char
  columns : List String
  rows : List UploadRow
  deriving DecidableEq, Repr

/-- The ValueError raised by get_dataframe or validate_dataframe. -/
inductive ValueError
  | invalidFileType (ext : List Char)
  | invalidColumnNames (bad : List String)
  deriving DecidableEq, Repr

/-- Auxiliary for splitting a character list on the dot character. -/
def splitOnDotAux (cur : List Char) : List Char → List (List Char)
  | [] => [cur.reverse]
  | c :: cs =>
    if c = '.' then cur.reverse :: splitOnDotAux [] cs
    else splitOnDotAux (c :: cur) cs

/-- Models `"".join(input_file.name.split(".")[-1])` (views/employees.py
line 122): the last dot-separated component of the file name. -/
def fileExt (name : List Char) : List Char := (splitOnDotAux [] name).getLastD []

/-- The accepted column names (views/employees.py line 135). -/
def target_cols : List String := ["Email", "Phone", "Title"]

/-- EmployeeBatchCreateView.validate_dataframe (views/employees.py
lines 133-140): collect the column names outside target_cols and raise
a ValueError when any exist. -/
def validate_dataframe (f : InputFile) : Except ValueError InputFile :=
  let bad_cols := f.columns.filter (fun c => !(target_cols.contains c))
  if bad_cols.isEmpty then Except.ok f
  else Except.error (ValueError.invalidColumnNames bad_cols)

/-- EmployeeBatchCreateView.get_dataframe (views/employees.py lines
121-131): read the table when the extension is csv or xlsx, raise a
ValueError otherwise, then validate the columns. -/
def get_dataframe (f : InputFile) : Except ValueError InputFile :=
  if fileExt f.name = "csv".data then validate_dataframe f
  else if fileExt f.name = "xlsx".data then validate_dataframe f
  else Except.error (ValueError.invalidFileType (fileExt f.name))

/-- Result of EmployeeBatchCreateView.form_valid: either the form is
re-rendered invalid with an error attached to a named field, or the
view redirects; either way the usernames of the employee accounts
created by the invocation are recorded. -/
inductive BatchCreateResult
  | formInvalid (errorField : String) (created : List String)
  | redirect (created : List String)
  deriving DecidableEq, Repr

/-- EmployeeBatchCreateView.form_valid (views/employees.py lines
88-119): a ValueError from get_dataframe is caught and attached to the
input_file field before any row is processed, so the error path
creates no employee account; otherwise one account is created per row
of the table. -/
def form_valid (f : InputFile) : BatchCreateResult :=
  match get_dataframe f with
  | Except.error _ => BatchCreateResult.formInvalid "input_file" []
  | Except.ok df => BatchCreateResult.redirect (df.rows.map (fun r => r.email))

/-!
Theorems settling the claims.
-/

/-- Claim C1, evaluated at a failing input: shift reconstruction does
NOT treat employees independently.  The `prev` slot is initialised
before the employee loop and never reset between employees, so with
logs employee 1: [PUNCH_OUT@0, PUNCH_IN@1] and employee 2:
[PUNCH_OUT@2, PUNCH_IN@3] the pending PUNCH_IN@1 of employee 1 is
paired with the PUNCH_OUT@2 of employee 2, yielding a shift (1,2)
recorded for employee 2 built from log entries of two different
employees. -/
theorem c1_cross_employee_shift :
    generatedShiftRows
      [⟨0, 1, LogAction.punch_out⟩, ⟨1, 1, LogAction.punch_in⟩,
       ⟨2, 2, LogAction.punch_out⟩, ⟨3, 2, LogAction.punch_in⟩] 9
      = [⟨1, 2, 2, some 1, 9⟩] := by decide

/-- Claim C2, counterexample at a concrete report whose shift set is
non-empty: a second direct invocation of generate_shifts is not
rejected (it returns ok, no assertion failure) and it does change the
shift set (the result is not ok of the unchanged report: a duplicate
shift row is inserted); the save path likewise raises nothing. -/
theorem c2_counterexample :
    (generate_shifts ⟨some 3,
        [⟨0, 1, LogAction.punch_in⟩, ⟨5, 1, LogAction.punch_out⟩],
        [⟨0, 5, 1, some 5, 3⟩], none⟩).isOk = true
    ∧ generate_shifts ⟨some 3,
        [⟨0, 1, LogAction.punch_in⟩, ⟨5, 1, LogAction.punch_out⟩],
        [⟨0, 5, 1, some 5, 3⟩], none⟩
      ≠ Except.ok ⟨some 3,
        [⟨0, 1, LogAction.punch_in⟩, ⟨5, 1, LogAction.punch_out⟩],
        [⟨0, 5, 1, some 5, 3⟩], none⟩
    ∧ report_save ⟨some 3,
        [⟨0, 1, LogAction.punch_in⟩, ⟨5, 1, LogAction.punch_out⟩],
        [⟨0, 5, 1, some 5, 3⟩], none⟩ 5
      = Except.ok ⟨some 3,
        [⟨0, 1, LogAction.punch_in⟩, ⟨5, 1, LogAction.punch_out⟩],
        [⟨0, 5, 1, some 5, 3⟩], none⟩ := by decide

/-- Claim C2 as amended: for every report whose shift set is already
non-empty, a second shift generation through the save path is skipped
without any error and leaves the report (in particular its shift set)
unchanged; a direct generate_shifts call is not rejected either: when
the report has logs it succeeds and inserts the freshly paired rows
again. -/
theorem c2_amended_idempotency (r : ReportState) (k : Nat)
    (hpk : r.pk.isSome) (hs : r.shifts ≠ []) :
    report_save r k = Except.ok r
    ∧ (r.logs ≠ [] →
        generate_shifts r
          = Except.ok { r with
              shifts := r.shifts ++ generatedShiftRows r.logs (r.pk.getD 0) }) := by
  obtain ⟨p, hp⟩ := Option.isSome_iff_exists.mp hpk
  constructor
  · simp [report_save, shifts_generated, List.isEmpty_eq_true, hs, report_super_save, hp]
  · intro hl
    simp [generate_shifts, List.isEmpty_eq_true, hl]

/-- Witness for c2_amended_idempotency at a concrete report. -/
theorem c2_amended_idempotency_witness :
    report_save ⟨some 3,
        [⟨0, 1, LogAction.punch_in⟩, ⟨5, 1, LogAction.punch_out⟩],
        [⟨0, 5, 1, some 5, 3⟩], none⟩ 5
      = Except.ok ⟨some 3,
        [⟨0, 1, LogAction.punch_in⟩, ⟨5, 1, LogAction.punch_out⟩],
        [⟨0, 5, 1, some 5, 3⟩], none⟩
    ∧ (([⟨0, 1, LogAction.punch_in⟩, ⟨5, 1, LogAction.punch_out⟩]
          : List AuthenticatorLogItem) ≠ [] →
        generate_shifts ⟨some 3,
            [⟨0, 1, LogAction.punch_in⟩, ⟨5, 1, LogAction.punch_out⟩],
            [⟨0, 5, 1, some 5, 3⟩], none⟩
          = Except.ok ⟨some 3,
              [⟨0, 1, LogAction.punch_in⟩, ⟨5, 1, LogAction.punch_out⟩],
              [⟨0, 5, 1, some 5, 3⟩]
                ++ generatedShiftRows
                    [⟨0, 1, LogAction.punch_in⟩, ⟨5, 1, LogAction.punch_out⟩]
                    ((some 3).getD 0),
              none⟩) :=
  c2_amended_idempotency
    ⟨some 3, [⟨0, 1, LogAction.punch_in⟩, ⟨5, 1, LogAction.punch_out⟩],
      [⟨0, 5, 1, some 5, 3⟩], none⟩ 5 (by decide) (by decide)

/-- Claim C3: for a single employee with logs [PUNCH_IN@t1,
PUNCH_OUT@t2, PUNCH_IN@t3, PUNCH_OUT@t4], t1 < t2 < t3 < t4, shift
generation yields exactly the two shifts (t1,t2) and (t3,t4) for that
employee. -/
theorem c3_pairing_two_shifts (e k : Nat) (t1 t2 t3 t4 : Int)
    (h12 : t1 < t2) (h23 : t2 < t3) (h34 : t3 < t4) :
    generate_shifts ⟨some k,
      [⟨t1, e, LogAction.punch_in⟩, ⟨t2, e, LogAction.punch_out⟩,
       ⟨t3, e, LogAction.punch_in⟩, ⟨t4, e, LogAction.punch_out⟩], [], none⟩
    = Except.ok ⟨some k,
      [⟨t1, e, LogAction.punch_in⟩, ⟨t2, e, LogAction.punch_out⟩,
       ⟨t3, e, LogAction.punch_in⟩, ⟨t4, e, LogAction.punch_out⟩],
      [⟨t1, t2, e, some (t2 - t1), k⟩, ⟨t3, t4, e, some (t4 - t3), k⟩], none⟩ := by
  simp [generate_shifts, generatedShiftRows, distinctList, distinctAux, employeeLoop,
    List.filter, orderByDatetime, insertByDatetime, scanLogs, shift_save, durationFalsy,
    le_of_lt h12, le_of_lt h23, le_of_lt h34]

/-- Witness for c3_pairing_two_shifts at concrete timestamps. -/
theorem c3_pairing_two_shifts_witness :
    generate_shifts ⟨some 7,
      [⟨0, 1, LogAction.punch_in⟩, ⟨1, 1, LogAction.punch_out⟩,
       ⟨2, 1, LogAction.punch_in⟩, ⟨3, 1, LogAction.punch_out⟩], [], none⟩
    = Except.ok ⟨some 7,
      [⟨0, 1, LogAction.punch_in⟩, ⟨1, 1, LogAction.punch_out⟩,
       ⟨2, 1, LogAction.punch_in⟩, ⟨3, 1, LogAction.punch_out⟩],
      [⟨0, 1, 1, some (1 - 0), 7⟩, ⟨2, 3, 1, some (3 - 2), 7⟩], none⟩ :=
  c3_pairing_two_shifts 1 7 0 1 2 3 (by decide) (by decide) (by decide)

/-- Claim C4: for a single employee with logs [PUNCH_OUT@t1,
PUNCH_IN@t2, PUNCH_OUT@t3], t1 < t2 < t3, shift generation yields
exactly one shift (t2,t3); the leading PUNCH_OUT yields no shift. -/
theorem c4_dangling_punch_out (e k : Nat) (t1 t2 t3 : Int)
    (h12 : t1 < t2) (h23 : t2 < t3) :
    generate_shifts ⟨some k,
      [⟨t1, e, LogAction.punch_out⟩, ⟨t2, e, LogAction.punch_in⟩,
       ⟨t3, e, LogAction.punch_out⟩], [], none⟩
    = Except.ok ⟨some k,
      [⟨t1, e, LogAction.punch_out⟩, ⟨t2, e, LogAction.punch_in⟩,
       ⟨t3, e, LogAction.punch_out⟩],
      [⟨t2, t3, e, some (t3 - t2), k⟩], none⟩ := by
  simp [generate_shifts, generatedShiftRows, distinctList, distinctAux, employeeLoop,
    List.filter, orderByDatetime, insertByDatetime, scanLogs, shift_save, durationFalsy,
    le_of_lt h12, le_of_lt h23]

/-- Witness for c4_dangling_punch_out at concrete timestamps. -/
theorem c4_dangling_punch_out_witness :
    generate_shifts ⟨some 7,
      [⟨0, 1, LogAction.punch_out⟩, ⟨1, 1, LogAction.punch_in⟩,
       ⟨2, 1, LogAction.punch_out⟩], [], none⟩
    = Except.ok ⟨some 7,
      [⟨0, 1, LogAction.punch_out⟩, ⟨1, 1, LogAction.punch_in⟩,
       ⟨2, 1, LogAction.punch_out⟩],
      [⟨1, 2, 1, some (2 - 1), 7⟩], none⟩ :=
  c4_dangling_punch_out 1 7 0 1 2 (by decide) (by decide)

/-- Claim C5: for a single employee with logs [PUNCH_IN@t1,
PUNCH_IN@t2, PUNCH_OUT@t3], t1 < t2 < t3, shift generation yields
exactly one shift (t2,t3); the earlier PUNCH_IN is discarded. -/
theorem c5_duplicate_punch_in (e k : Nat) (t1 t2 t3 : Int)
    (h12 : t1 < t2) (h23 : t2 < t3) :
    generate_shifts ⟨some k,
      [⟨t1, e, LogAction.punch_in⟩, ⟨t2, e, LogAction.punch_in⟩,
       ⟨t3, e, LogAction.punch_out⟩], [], none⟩
    = Except.ok ⟨some k,
      [⟨t1, e, LogAction.punch_in⟩, ⟨t2, e, LogAction.punch_in⟩,
       ⟨t3, e, LogAction.punch_out⟩],
      [⟨t2, t3, e, some (t3 - t2), k⟩], none⟩ := by
  simp [generate_shifts, generatedShiftRows, distinctList, distinctAux, employeeLoop,
    List.filter, orderByDatetime, insertByDatetime, scanLogs, shift_save, durationFalsy,
    le_of_lt h12, le_of_lt h23]

/-- Witness for c5_duplicate_punch_in at concrete timestamps. -/
theorem c5_duplicate_punch_in_witness :
    generate_shifts ⟨some 7,
      [⟨0, 1, LogAction.punch_in⟩, ⟨1, 1, LogAction.punch_in⟩,
       ⟨2, 1, LogAction.punch_out⟩], [], none⟩
    = Except.ok ⟨some 7,
      [⟨0, 1, LogAction.punch_in⟩, ⟨1, 1, LogAction.punch_in⟩,
       ⟨2, 1, LogAction.punch_out⟩],
      [⟨1, 2, 1, some (2 - 1), 7⟩], none⟩ :=
  c5_duplicate_punch_in 1 7 0 1 2 (by decide) (by decide)

/-- Claim C7: for every report with at least one log but no shift
rows, generate_pdf fails on the shifts assertion; the pdf field
assignment is never reached, so the report has no pdf. -/
theorem c7_pdf_requires_shifts (r : ReportState)
    (hl : r.logs ≠ []) (hs : r.shifts = []) :
    generate_pdf r = Except.error AssertionError.shiftsNotGenerated := by
  simp [generate_pdf, shifts_generated, hs, List.isEmpty_eq_true, hl]

/-- Witness for c7_pdf_requires_shifts at a concrete report. -/
theorem c7_pdf_requires_shifts_witness :
    generate_pdf ⟨some 3, [⟨0, 1, LogAction.punch_in⟩], [], none⟩
      = Except.error AssertionError.shiftsNotGenerated :=
  c7_pdf_requires_shifts ⟨some 3, [⟨0, 1, LogAction.punch_in⟩], [], none⟩
    (by decide) rfl

/-- Claim C10: saving an already-persisted report with zero shift rows
invokes shift generation (the save equals the generate_shifts call),
so when the report additionally has no logs the save fails on the logs
assertion instead of completing. -/
theorem c10_save_invokes_generation (r : ReportState) (k : Nat)
    (hpk : r.pk.isSome) (hs : r.shifts = []) :
    report_save r k = generate_shifts r
    ∧ (r.logs = [] → report_save r k = Except.error AssertionError.logsNotSet) := by
  obtain ⟨p, hp⟩ := Option.isSome_iff_exists.mp hpk
  have hmain : report_save r k = generate_shifts r := by
    by_cases hlog : r.logs.isEmpty
    · simp [report_save, generate_shifts, shifts_generated, hs, hp, hlog]
    · simp [report_save, generate_shifts, shifts_generated, hs, hp, hlog,
        report_super_save]
  refine ⟨hmain, fun hnil => ?_⟩
  rw [hmain]
  simp [generate_shifts, hnil]

/-- Witness for c10_save_invokes_generation at a concrete report. -/
theorem c10_save_invokes_generation_witness :
    report_save ⟨some 3, [], [], none⟩ 5 = generate_shifts ⟨some 3, [], [], none⟩
    ∧ (([] : List AuthenticatorLogItem) = [] →
        report_save ⟨some 3, [], [], none⟩ 5
          = Except.error AssertionError.logsNotSet) :=
  c10_save_invokes_generation ⟨some 3, [], [], none⟩ 5 (by decide) rfl

/-- Helper for claim C8: every shift emitted by the inner scan has its
duration equal to end minus start, since each is created through
shift_save with an absent duration. -/
theorem scanLogs_mem_duration (e rpk : Nat) (logs : List AuthenticatorLogItem) :
    ∀ (prev : Option AuthenticatorLogItem) (s : AuthenticatorEmployeeShift),
      s ∈ (scanLogs e rpk logs prev).1 →
      s.duration = some (s.end_datetime - s.start_datetime) := by
  induction logs with
  | nil => intro prev s hs; simp [scanLogs] at hs
  | cons curr rest ih =>
    intro prev s hs
    rw [scanLogs.eq_def] at hs
    dsimp only at hs
    by_cases ha : curr.action = LogAction.punch_in ∨ curr.action = LogAction.punch_out
    · rw [if_pos ha] at hs
      cases prev with
      | some p =>
        dsimp only at hs
        by_cases hm : p.action = LogAction.punch_in ∧ curr.action = LogAction.punch_out
        · rw [if_pos hm] at hs
          simp only [List.mem_cons] at hs
          rcases hs with rfl | hs
          · simp [shift_save, durationFalsy]
          · exact ih none s hs
        · rw [if_neg hm] at hs
          exact ih (some curr) s hs
      | none => exact ih (some curr) s hs
    · rw [if_neg ha] at hs
      exact ih prev s hs

/-- Helper for claim C8: the duration property carries over the outer
employee loop. -/
theorem employeeLoop_mem_duration (logs : List AuthenticatorLogItem) (rpk : Nat)
    (es : List Nat) :
    ∀ (prev : Option AuthenticatorLogItem) (s : AuthenticatorEmployeeShift),
      s ∈ employeeLoop logs rpk es prev →
      s.duration = some (s.end_datetime - s.start_datetime) := by
  induction es with
  | nil => intro prev s hs; simp [employeeLoop] at hs
  | cons e es ih =>
    intro prev s hs
    rw [employeeLoop] at hs
    simp only [List.mem_append] at hs
    rcases hs with hs | hs
    · exact scanLogs_mem_duration e rpk _ prev s hs
    · exact ih _ s hs

/-- Claim C8: every shift produced by the shift reconstructor has,
after its save, a duration equal to its end timestamp minus its start
timestamp exactly. -/
theorem c8_duration_exact (logs : List AuthenticatorLogItem) (rpk : Nat)
    (s : AuthenticatorEmployeeShift) (hs : s ∈ generatedShiftRows logs rpk) :
    s.duration = some (s.end_datetime - s.start_datetime) :=
  employeeLoop_mem_duration logs rpk _ none s hs

/-- Witness for c8_duration_exact at a concrete generated shift. -/
theorem c8_duration_exact_witness :
    (⟨0, 5, 1, some 5, 3⟩ : AuthenticatorEmployeeShift).duration
      = some ((⟨0, 5, 1, some 5, 3⟩ : AuthenticatorEmployeeShift).end_datetime
          - (⟨0, 5, 1, some 5, 3⟩ : AuthenticatorEmployeeShift).start_datetime) :=
  c8_duration_exact
    [⟨0, 1, LogAction.punch_in⟩, ⟨5, 1, LogAction.punch_out⟩] 3
    ⟨0, 5, 1, some 5, 3⟩ (by decide)

/-- Helper for claim C6: the log entries created by a sequence of
saves are counted exactly by claimedLogCount applied to the pk flag
and the two shadow fields of the starting state. -/
theorem runSaves_count (empPk : Nat) (us : List (Bool × String)) :
    ∀ e : EmployeeState,
      ((runSaves e empPk us).2).length
        = claimedLogCount e.pk.isSome e._prev_punch_state
            e._prev_fingerprint_code us := by
  induction us with
  | nil => intro e; rfl
  | cons u us ih =>
    intro e
    cases hpk : e.pk with
    | none =>
      simp only [runSaves, employee_save, hpk, claimedLogCount]
      simp [ih]
    | some epk =>
      by_cases hp : u.1 ≠ e._prev_punch_state <;>
        by_cases hc : (some u.2 : Option String) ≠ e._prev_fingerprint_code <;>
          simp only [runSaves, employee_save, hpk, claimedLogCount] <;>
            simp_all [ih] <;> omega

/-- Claim C6: over any sequence of saves of one employee the number of
created log entries equals the count, over the saves performed with a
primary key present, of punched_in differing from its shadow plus code
differing from its shadow; a save without a primary key creates no
entry; and a punch change false to true records PUNCH_IN while true to
false records PUNCH_OUT (followed by ASSIGN_CODE exactly when the code
also differs from its shadow). -/
theorem c6_log_recorder_counts :
    (∀ (e : EmployeeState) (empPk : Nat) (us : List (Bool × String)),
        ((runSaves e empPk us).2).length
          = claimedLogCount e.pk.isSome e._prev_punch_state
              e._prev_fingerprint_code us)
    ∧ (∀ (p : Bool) (c : String) (sp : Bool) (sc : Option String)
          (empPk : Nat) (now : Int),
        (employee_save ⟨none, p, c, sp, sc⟩ empPk now).2 = [])
    ∧ (∀ (epk empPk : Nat) (c : String) (sc : Option String) (now : Int),
        ((employee_save ⟨some epk, true, c, false, sc⟩ empPk now).2.map
            (fun l => l.action))
          = LogAction.punch_in
              :: (if some c ≠ sc then [LogAction.assign_code] else []))
    ∧ (∀ (epk empPk : Nat) (c : String) (sc : Option String) (now : Int),
        ((employee_save ⟨some epk, false, c, true, sc⟩ empPk now).2.map
            (fun l => l.action))
          = LogAction.punch_out
              :: (if some c ≠ sc then [LogAction.assign_code] else [])) := by
  refine ⟨fun e empPk us => runSaves_count empPk us e, fun p c sp sc empPk now => rfl,
    fun epk empPk c sc now => ?_, fun epk empPk c sc now => ?_⟩
  · by_cases hc : (some c : Option String) ≠ sc <;> simp [employee_save, hc]
  · by_cases hc : (some c : Option String) ≠ sc <;> simp [employee_save, hc]

/-- Claim C9: a batch employee-creation upload whose file extension is
neither csv nor xlsx, or whose table has a column name outside Email,
Phone, Title, is answered by a validation error attached to the
input_file field with zero employee accounts created. -/
theorem c9_batch_invalid_aborts (f : InputFile)
    (h : (fileExt f.name ≠ "csv".data ∧ fileExt f.name ≠ "xlsx".data)
        ∨ ∃ c ∈ f.columns, c ∉ target_cols) :
    form_valid f = BatchCreateResult.formInvalid "input_file" [] := by
  have hgd : ∃ err, get_dataframe f = Except.error err := by
    rcases h with ⟨h1, h2⟩ | ⟨c, hc, hct⟩
    · exact ⟨ValueError.invalidFileType (fileExt f.name),
        by simp only [get_dataframe, if_neg h1, if_neg h2]⟩
    · have hmem : c ∈ f.columns.filter (fun x => !(target_cols.contains x)) :=
        List.mem_filter.mpr ⟨hc, by simpa using hct⟩
      have hval : ∃ err, validate_dataframe f = Except.error err := by
        refine ⟨ValueError.invalidColumnNames
          (f.columns.filter (fun x => !(target_cols.contains x))), ?_⟩
        simp only [validate_dataframe]
        rw [if_neg]
        simp only [List.isEmpty_eq_true]
        exact List.ne_nil_of_mem hmem
      obtain ⟨err, he⟩ := hval
      by_cases e1 : fileExt f.name = "csv".data
      · exact ⟨err, by simp only [get_dataframe, if_pos e1]; exact he⟩
      · by_cases e2 : fileExt f.name = "xlsx".data
        · exact ⟨err, by simp only [get_dataframe, if_neg e1, if_pos e2]; exact he⟩
        · exact ⟨ValueError.invalidFileType (fileExt f.name),
            by simp only [get_dataframe, if_neg e1, if_neg e2]⟩
  obtain ⟨err, he⟩ := hgd
  simp only [form_valid, he]

/-- Witness for c9_batch_invalid_aborts at a concrete upload with an
invalid extension. -/
theorem c9_batch_invalid_aborts_witness :
    form_valid ⟨"a.txt".data, ["Email"], []⟩
      = BatchCreateResult.formInvalid "input_file" [] :=
  c9_batch_invalid_aborts ⟨"a.txt".data, ["Email"], []⟩
    (Or.inl (by decide))
